import Mathlib

/-!
# Toyhouse custom-CSS toggle: a model of `background.js`

The background script registers three listeners with the browser
(`chrome.runtime.onInstalled`, `chrome.action.onClicked`,
`chrome.tabs.onUpdated`).  Each listener is embedded as a function on an
explicit browser state holding exactly what the script reads and writes:

* the extension-local storage key `styleTagsEnabled`,
* the action badge (a global text and an optional text per tab),
* for every tab, the `<style>` elements of the document loaded in it, each with its
  associated CSS style sheet when it has one.

The one thing the script cannot decide itself is whether
`chrome.scripting.executeScript` manages to run the injected function; that is
an input of the listeners (`injectOk`).  A listener returns the state it leaves
behind together with the error it ended in, if any, because effects performed
before a JavaScript exception are kept.

Two pieces of browser behaviour shape what the script achieves and are modelled
as the platform defines them: the DOM property `disabled` of a `<style>` element
acts on the associated CSS style sheet and does nothing when there is none, and
the browser may drop the badge text of a tab when the tab navigates.
-/

namespace ToyhouseCSS

/-! ## Data model -/

/-- The constant `TOYHOUSE_URL` of `background.js`. -/
def TOYHOUSE_URL : String := "https://toyhou.se"

/-- JavaScript `s.startsWith(pre)`: `pre` is an initial segment of `s`.  The strings are
compared character by character; the script only ever passes the ASCII constant
`TOYHOUSE_URL` as `pre`, for which this agrees with the comparison of UTF-16 units. -/
def startsWith (s pre : String) : Bool := pre.data.isPrefixOf s.data

/-- Identifier of a browser tab. -/
abbrev TabId := Nat

/-- The fields of `chrome.tabs.Tab` the script reads.  `url` is optional in the
browser API: it is `undefined` when the extension may not see the address. -/
structure Tab where
  id : TabId
  url : Option String

/-- A `<style>` element: its CSS text, which the script never touches, and its
associated CSS style sheet.  `sheet = some d` is a sheet whose disabled flag is `d`;
`sheet = none` is an element without associated sheet (a `type` other than `text/css`,
or a sheet the content security policy refused). -/
structure StyleTag where
  css : String
  sheet : Option Bool
deriving DecidableEq, Repr

/-- Getter of the DOM property `disabled` of a `<style>` element: `false` when the element
has no associated CSS style sheet, the disabled flag of the sheet otherwise. -/
def StyleTag.disabled (e : StyleTag) : Bool :=
  match e.sheet with
  | none => false
  | some d => d

/-- Setter of the DOM property `disabled`, the assignment `STYLETAGS[i].disabled = value`:
nothing happens when the element has no associated CSS style sheet, otherwise the
disabled flag of the sheet becomes `value`. -/
def StyleTag.setDisabled (e : StyleTag) (value : Bool) : StyleTag :=
  match e.sheet with
  | none => e
  | some _ => { e with sheet := some value }

/-- State of the host browser as far as the script can observe or change it. -/
structure Browser where
  /-- value stored under `styleTagsEnabled` in `chrome.storage.local`;
  `none` is JavaScript `undefined` (key never written) -/
  styleTagsEnabled : Option Bool
  /-- badge text set without a `tabId` -/
  globalBadge : String
  /-- badge text set for one tab, when there is one -/
  tabBadge : TabId → Option String
  /-- result of `document.querySelectorAll` for `style` in the page of each tab -/
  document : TabId → List StyleTag

/-- How a listener can end abnormally. -/
inductive JsError
  /-- `TypeError`: a property of `undefined` was read -/
  | typeError
  /-- the promise of `chrome.scripting.executeScript` was rejected -/
  | injectionRejected
deriving DecidableEq, Repr

/-- Result of running a listener to completion. -/
structure Outcome where
  state : Browser
  error : Option JsError

/-! ## Browser primitives used by the script -/

/-- The call `chrome.action.getBadgeText({tabId})`: the text of the tab when it
has one, the global text otherwise. -/
def getBadgeText (b : Browser) (tabId : TabId) : String :=
  (b.tabBadge tabId).getD b.globalBadge

/-- The helper `setBadgeText(tabId, text)` of `background.js`. -/
def setBadgeText (b : Browser) (tabId : TabId) (text : String) : Browser :=
  { b with tabBadge := fun t => if t = tabId then some text else b.tabBadge t }

/-! ## The injected function -/

/-- The `for` loop of `toggleStyleTags`: `i` runs over `0 .. STYLETAGS.length - 1`
and `!enabled` is assigned to the property `disabled` of element `i`. -/
def styleLoop (enabled : Bool) (STYLETAGS : List StyleTag) : List StyleTag :=
  (List.range STYLETAGS.length).foldl
    (fun tags i => tags.modify (fun e => e.setDisabled (!enabled)) i) STYLETAGS

/-- The function `toggleStyleTags(enabled)`, run in the page of tab `page`: the loop
over the style elements, then `chrome.storage.local.set({styleTagsEnabled: enabled})`. -/
def toggleStyleTags (enabled : Bool) (page : TabId) (b : Browser) : Browser :=
  let STYLETAGS := styleLoop enabled (b.document page)
  { b with
    document := fun t => if t = page then STYLETAGS else b.document t
    styleTagsEnabled := some enabled }

/-- The call `chrome.scripting.executeScript({target: {tabId}, function: toggleStyleTags,
args: [enabled]})`.  When the browser can inject (`injectOk`) the function runs in the
page; otherwise the promise is rejected and nothing happens. -/
def executeScript (b : Browser) (tabId : TabId) (enabled : Bool) (injectOk : Bool) :
    Option Browser :=
  if injectOk then some (toggleStyleTags enabled tabId b) else none

/-! ## The listeners -/

/-- Listener of `chrome.runtime.onInstalled`: `chrome.action.setBadgeText({text: "ON"})`. -/
def onInstalled (b : Browser) : Browser :=
  { b with globalBadge := "ON" }

/-- The expression `enabled !== undefined ? enabled : true` of `applySavedState`. -/
def stateToApply (enabled : Option Bool) : Bool :=
  match enabled with
  | some v => v
  | none => true

/-- The helper `applySavedState(tabId)`: read the key, default to `true`, inject
`toggleStyleTags` (not awaited: a rejection does not stop the callback), set the badge. -/
def applySavedState (b : Browser) (tabId : TabId) (injectOk : Bool) : Outcome :=
  let enabled := b.styleTagsEnabled
  let stateToApply := stateToApply enabled
  match executeScript b tabId stateToApply injectOk with
  | some b1 => ⟨setBadgeText b1 tabId (if stateToApply then "ON" else "OFF"), none⟩
  | none => ⟨setBadgeText b tabId (if stateToApply then "ON" else "OFF"),
      some JsError.injectionRejected⟩

/-- Listener of `chrome.action.onClicked`.  `tab.url.startsWith` on an `undefined`
url throws a `TypeError` before anything else is done. -/
def onClicked (b : Browser) (tab : Tab) (injectOk : Bool) : Outcome :=
  match tab.url with
  | none => ⟨b, some JsError.typeError⟩
  | some url =>
    if startsWith url TOYHOUSE_URL then
      let prevState := getBadgeText b tab.id
      let nextState := if prevState = "ON" then "OFF" else "ON"
      let b1 := setBadgeText b tab.id nextState
      let enabled := decide (nextState = "ON")
      match executeScript b1 tab.id enabled injectOk with
      | some b2 => ⟨b2, none⟩
      | none => ⟨b1, some JsError.injectionRejected⟩
    else ⟨b, none⟩

/-- The guard `tab.url && tab.url.startsWith(TOYHOUSE_URL)`: an `undefined` or empty
url is falsy and short-circuits. -/
def urlGuard (tab : Tab) : Bool :=
  match tab.url with
  | none => false
  | some url => url ≠ "" && startsWith url TOYHOUSE_URL

/-- Listener of `chrome.tabs.onUpdated` (`changeInfo` is not read by the script). -/
def onUpdated (b : Browser) (tabId : TabId) (tab : Tab) (injectOk : Bool) : Outcome :=
  if urlGuard tab then applySavedState b tabId injectOk else ⟨b, none⟩

/-! ## Event traces -/

/-- What can happen to the extension: its three listeners fire, and the browser loads
a document into a tab (a navigation, which is what `onUpdated` reports).  Whether the
browser drops badge texts set for a tab when that tab navigates (`badgeReset`), or when
the extension is installed again (`badgesReset`), is not in the hands of the script, so
both behaviours are events. -/
inductive Event
  | installed (badgesReset : Bool)
  | clicked (tab : Tab) (injectOk : Bool)
  | updated (tabId : TabId) (tab : Tab) (injectOk : Bool)
  | pageLoaded (tabId : TabId) (doc : List StyleTag) (badgeReset : Bool)

/-- State after one event; an error a listener ends in is not seen by later events. -/
def step (b : Browser) : Event → Browser
  | .installed badgesReset =>
    onInstalled { b with tabBadge := fun t => if badgesReset then none else b.tabBadge t }
  | .clicked tab injectOk => (onClicked b tab injectOk).state
  | .updated tabId tab injectOk => (onUpdated b tabId tab injectOk).state
  | .pageLoaded tabId doc badgeReset =>
    { b with
      document := fun t => if t = tabId then doc else b.document t
      tabBadge := fun t => if badgeReset && decide (t = tabId) then none else b.tabBadge t }

/-- State after a sequence of events. -/
def run (b : Browser) (events : List Event) : Browser :=
  events.foldl step b

/-- The browser right after the extension was installed: nothing stored, no tab has a
badge text of its own, and `onInstalled` has run.  `pages` are the open documents. -/
def freshInstall (pages : TabId → List StyleTag) : Browser :=
  onInstalled ⟨none, "", fun _ => none, pages⟩

/-- The click event is the only one that is an `OnIconClicked`. -/
def Event.isClick : Event → Bool
  | .clicked _ _ => true
  | _ => false

/-- The target-site match rule: the tab has a url and it starts with `TOYHOUSE_URL`. -/
def Tab.isToyhouse (tab : Tab) : Bool :=
  match tab.url with
  | some url => startsWith url TOYHOUSE_URL
  | none => false

/-- A listener runs on target-site tab `t` and its injection succeeds: the event writes
both the badge text of `t` and the stored boolean. -/
def Event.settles (t : TabId) : Event → Bool
  | .clicked tab injectOk => tab.isToyhouse && decide (tab.id = t) && injectOk
  | .updated tabId tab injectOk => tab.isToyhouse && decide (tabId = t) && injectOk
  | _ => false

/-- An event that is neither a click that toggles (one on a target-site tab whose
injection succeeds), nor a failing click on target-site tab `t`, nor a reset of the badge
text of `t` by the browser. -/
def Event.spares (t : TabId) : Event → Bool
  | .installed badgesReset => !badgesReset
  | .pageLoaded tabId _ badgeReset => !(badgeReset && decide (tabId = t))
  | .clicked tab injectOk => !tab.isToyhouse || (!injectOk && !decide (tab.id = t))
  | .updated _ _ _ => true

/-- Every style element of the list reads `disabled = d`. -/
def allDisabledAre (d : Bool) (tags : List StyleTag) : Prop :=
  ∀ e ∈ tags, e.disabled = d

instance (d : Bool) (tags : List StyleTag) : Decidable (allDisabledAre d tags) := by
  unfold allDisabledAre
  infer_instance

/-- The style elements are as `toggleStyleTags(enabled)` leaves them: one with an
associated CSS style sheet reads `disabled = !enabled`, one without reads
`disabled = false`. -/
def disabledAsApplied (enabled : Bool) (tags : List StyleTag) : Prop :=
  ∀ e ∈ tags, e.disabled = (e.sheet.isSome && !enabled)

instance (enabled : Bool) (tags : List StyleTag) :
    Decidable (disabledAsApplied enabled tags) := by
  unfold disabledAsApplied
  infer_instance

/-- A page with one ordinary style element and one without associated style sheet. -/
def mixedPage : List StyleTag := [⟨"a", some false⟩, ⟨"b", none⟩]

/-- Three clicks on two target-site tabs, every injection succeeding: tab 1, tab 2,
tab 1 again. -/
def twoTabClicks : List Event :=
  [.clicked ⟨1, some "https://toyhou.se/a"⟩ true,
   .clicked ⟨2, some "https://toyhou.se/b"⟩ true,
   .clicked ⟨1, some "https://toyhou.se/a"⟩ true]

/-- A tab update that injects, then a click on the same tab whose injection fails. -/
def failedClick : List Event :=
  [.updated 1 ⟨1, some "https://toyhou.se/a"⟩ true,
   .clicked ⟨1, some "https://toyhou.se/a"⟩ false]

/-- The stored boolean and the badge text of tab `t` agree: a boolean is stored and the
text of the tab is its label. -/
def Mirrors (t : TabId) (b : Browser) : Prop :=
  ∃ v : Bool, b.styleTagsEnabled = some v ∧ b.tabBadge t = some (if v then "ON" else "OFF")

/-! ## Lemmas about the loop and the primitives -/

theorem foldl_modify_range (f : StyleTag → StyleTag) (l : List StyleTag) (n : Nat) :
    ∀ i : Nat, ((List.range n).foldl (fun tags i => tags.modify f i) l)[i]? =
      if i < n then (l[i]?).map f else l[i]? := by
  induction n with
  | zero => intro i; simp
  | succ n ih =>
    intro i
    rw [List.range_succ, List.foldl_append]
    simp only [List.foldl_cons, List.foldl_nil]
    rw [List.getElem?_modify, ih]
    by_cases h : n = i
    · subst h; simp
    · simp only [h, if_false]
      by_cases h2 : i < n
      · have : i < n + 1 := by omega
        simp [h2, this]
      · have : ¬ i < n + 1 := by omega
        simp [h2, this]

/-- The loop is a map: `!enabled` is assigned to `disabled` on every element. -/
theorem styleLoop_eq_map (enabled : Bool) (l : List StyleTag) :
    styleLoop enabled l = l.map (fun e => e.setDisabled (!enabled)) := by
  apply List.ext_getElem?
  intro i
  unfold styleLoop
  rw [foldl_modify_range]
  by_cases h : i < l.length
  · simp [h]
  · have h2 : l.length ≤ i := by omega
    simp [h, List.getElem?_eq_none h2]

theorem setDisabled_disabled (e : StyleTag) (v : Bool) :
    (e.setDisabled v).disabled = (e.sheet.isSome && v) := by
  cases e with
  | mk css sheet => cases sheet <;> simp [StyleTag.setDisabled, StyleTag.disabled]

theorem setDisabled_sheet_isSome (e : StyleTag) (v : Bool) :
    (e.setDisabled v).sheet.isSome = e.sheet.isSome := by
  cases e with
  | mk css sheet => cases sheet <;> simp [StyleTag.setDisabled]

theorem setDisabled_css (e : StyleTag) (v : Bool) : (e.setDisabled v).css = e.css := by
  cases e with
  | mk css sheet => cases sheet <;> simp [StyleTag.setDisabled]

theorem setDisabled_idem (e : StyleTag) (v : Bool) :
    (e.setDisabled v).setDisabled v = e.setDisabled v := by
  cases e with
  | mk css sheet => cases sheet <;> simp [StyleTag.setDisabled]

theorem styleLoop_disabledAsApplied (enabled : Bool) (l : List StyleTag) :
    disabledAsApplied enabled (styleLoop enabled l) := by
  intro e he
  rw [styleLoop_eq_map] at he
  obtain ⟨a, _, rfl⟩ := List.mem_map.1 he
  rw [setDisabled_disabled, setDisabled_sheet_isSome]

theorem disabledAsApplied_true (l : List StyleTag) (h : disabledAsApplied true l) :
    allDisabledAre false l := by
  intro e he
  simpa using h e he

theorem styleLoop_idem (enabled : Bool) (l : List StyleTag) :
    styleLoop enabled (styleLoop enabled l) = styleLoop enabled l := by
  simp [styleLoop_eq_map, Function.comp_def, setDisabled_idem]

theorem isToyhouse_urlGuard (tab : Tab) : urlGuard tab = tab.isToyhouse := by
  unfold urlGuard Tab.isToyhouse
  cases h : tab.url with
  | none => rfl
  | some url =>
    simp only
    by_cases hu : url = ""
    · subst hu; decide
    · simp [hu]

theorem onClicked_ok (b : Browser) (tab : Tab) (h : tab.isToyhouse = true) :
    onClicked b tab true =
      ⟨toggleStyleTags (decide ((if getBadgeText b tab.id = "ON" then "OFF" else "ON") = "ON"))
        tab.id (setBadgeText b tab.id (if getBadgeText b tab.id = "ON" then "OFF" else "ON")),
        none⟩ := by
  cases hu : tab.url with
  | none => simp [Tab.isToyhouse, hu] at h
  | some url =>
    have hs : startsWith url TOYHOUSE_URL = true := by simpa [Tab.isToyhouse, hu] using h
    simp [onClicked, hu, hs, executeScript]

theorem click_store (b : Browser) (tab : Tab) (h : tab.isToyhouse = true) :
    (onClicked b tab true).state.styleTagsEnabled
      = some (decide ((if getBadgeText b tab.id = "ON" then "OFF" else "ON") = "ON")) := by
  cases hu : tab.url with
  | none => simp [Tab.isToyhouse, hu] at h
  | some url =>
    have hs : startsWith url TOYHOUSE_URL = true := by simpa [Tab.isToyhouse, hu] using h
    simp [onClicked, hu, hs, executeScript, toggleStyleTags]

theorem onClicked_fail (b : Browser) (tab : Tab) (h : tab.isToyhouse = true) :
    onClicked b tab false =
      ⟨setBadgeText b tab.id (if getBadgeText b tab.id = "ON" then "OFF" else "ON"),
        some JsError.injectionRejected⟩ := by
  cases hu : tab.url with
  | none => simp [Tab.isToyhouse, hu] at h
  | some url =>
    have hs : startsWith url TOYHOUSE_URL = true := by simpa [Tab.isToyhouse, hu] using h
    simp [onClicked, hu, hs, executeScript]

theorem onClicked_off (b : Browser) (tab : Tab) (injectOk : Bool)
    (h : tab.isToyhouse = false) : (onClicked b tab injectOk).state = b := by
  cases hu : tab.url with
  | none => simp [onClicked, hu]
  | some url =>
    have hs : startsWith url TOYHOUSE_URL = false := by simpa [Tab.isToyhouse, hu] using h
    simp [onClicked, hu, hs]

theorem onUpdated_ok (b : Browser) (tabId : TabId) (tab : Tab) (h : tab.isToyhouse = true) :
    onUpdated b tabId tab true =
      ⟨setBadgeText (toggleStyleTags (stateToApply b.styleTagsEnabled) tabId b) tabId
        (if stateToApply b.styleTagsEnabled then "ON" else "OFF"), none⟩ := by
  simp [onUpdated, isToyhouse_urlGuard, h, applySavedState, executeScript]

theorem onUpdated_fail (b : Browser) (tabId : TabId) (tab : Tab) (h : tab.isToyhouse = true) :
    onUpdated b tabId tab false =
      ⟨setBadgeText b tabId (if stateToApply b.styleTagsEnabled then "ON" else "OFF"),
        some JsError.injectionRejected⟩ := by
  simp [onUpdated, isToyhouse_urlGuard, h, applySavedState, executeScript]

theorem onUpdated_off (b : Browser) (tabId : TabId) (tab : Tab) (injectOk : Bool)
    (h : tab.isToyhouse = false) : onUpdated b tabId tab injectOk = ⟨b, none⟩ := by
  simp [onUpdated, isToyhouse_urlGuard, h]

@[simp] theorem getBadgeText_setBadgeText (b : Browser) (t : TabId) (x : String) :
    getBadgeText (setBadgeText b t x) t = x := by
  simp [getBadgeText, setBadgeText]

@[simp] theorem getBadgeText_toggleStyleTags (b : Browser) (e : Bool) (p t : TabId) :
    getBadgeText (toggleStyleTags e p b) t = getBadgeText b t := rfl

@[simp] theorem document_toggleStyleTags (b : Browser) (e : Bool) (p : TabId) :
    (toggleStyleTags e p b).document p = styleLoop e (b.document p) := by
  simp [toggleStyleTags]

@[simp] theorem document_setBadgeText (b : Browser) (t : TabId) (x : String) :
    (setBadgeText b t x).document = b.document := rfl

@[simp] theorem store_setBadgeText (b : Browser) (t : TabId) (x : String) :
    (setBadgeText b t x).styleTagsEnabled = b.styleTagsEnabled := rfl

@[simp] theorem store_toggleStyleTags (b : Browser) (e : Bool) (p : TabId) :
    (toggleStyleTags e p b).styleTagsEnabled = some e := rfl

/-! ## The injected function (C8) -/

/-- C8 as stated fails on a style element without associated style sheet: on the page
`mixedPage`, `toggleStyleTags(false)` leaves the flags reading `[true, false]`, so not
every style element has `disabled = !enabled`. -/
theorem toggle_false_leaves_sheetless_enabled :
    ((toggleStyleTags false 1 (freshInstall fun _ => mixedPage)).document 1).map
      StyleTag.disabled = [true, false] ∧
    ¬ allDisabledAre (!false)
      ((toggleStyleTags false 1 (freshInstall fun _ => mixedPage)).document 1) := by
  decide

/-- C8, amended: for every boolean `enabled` and every page, `toggleStyleTags(enabled)`
leaves every style element that has an associated CSS style sheet with
`disabled = !enabled` and every one without reading `disabled = false`, keeps the number
of style elements and their order (the CSS texts and which elements have a sheet are the
same position by position), and stores `enabled` under `styleTagsEnabled`. -/
theorem toggleStyleTags_spec (enabled : Bool) (page : TabId) (b : Browser) :
    disabledAsApplied enabled ((toggleStyleTags enabled page b).document page) ∧
    ((toggleStyleTags enabled page b).document page).length = (b.document page).length ∧
    ((toggleStyleTags enabled page b).document page).map StyleTag.css
      = (b.document page).map StyleTag.css ∧
    ((toggleStyleTags enabled page b).document page).map (fun e => e.sheet.isSome)
      = (b.document page).map (fun e => e.sheet.isSome) ∧
    (toggleStyleTags enabled page b).styleTagsEnabled = some enabled := by
  refine ⟨?_, ?_, ?_, ?_, rfl⟩
  · rw [document_toggleStyleTags]; exact styleLoop_disabledAsApplied enabled _
  · rw [document_toggleStyleTags, styleLoop_eq_map]; simp
  · rw [document_toggleStyleTags, styleLoop_eq_map]
    simp [List.map_map, Function.comp_def, setDisabled_css]
  · rw [document_toggleStyleTags, styleLoop_eq_map]
    simp [List.map_map, Function.comp_def, setDisabled_sheet_isSome]

/-! ## Tabs off the target site (C2, C9) -/

/-- C2: for a tab whose url is a string that does not start with `https://toyhou.se`,
`OnIconClicked` and `OnTabUpdated` end without error and leave the whole browser state
as it was: storage, every badge text and every style element. -/
theorem offsite_noop (b : Browser) (tabId : TabId) (tab : Tab) (url : String)
    (injectOk : Bool) (hurl : tab.url = some url)
    (hoff : startsWith url TOYHOUSE_URL = false) :
    onClicked b tab injectOk = ⟨b, none⟩ ∧ onUpdated b tabId tab injectOk = ⟨b, none⟩ := by
  have h : tab.isToyhouse = false := by simp [Tab.isToyhouse, hurl, hoff]
  refine ⟨?_, onUpdated_off b tabId tab injectOk h⟩
  simp [onClicked, hurl, hoff]

theorem offsite_noop_witness :
    startsWith "https://example.com" TOYHOUSE_URL = false ∧
    onClicked (freshInstall fun _ => mixedPage) ⟨1, some "https://example.com"⟩ true
      = ⟨freshInstall fun _ => mixedPage, none⟩ ∧
    onUpdated (freshInstall fun _ => mixedPage) 1 ⟨1, some "https://example.com"⟩ true
      = ⟨freshInstall fun _ => mixedPage, none⟩ :=
  ⟨by decide, offsite_noop _ 1 ⟨1, some "https://example.com"⟩ "https://example.com" true rfl
    (by decide)⟩

/-- C9, the tab without url: `OnTabUpdated` is a no-op that ends without error, but
`OnIconClicked` ends in a `TypeError` (state untouched), since it calls `startsWith`
on the `undefined` url without the guard its sibling has. -/
theorem undefined_url_click_throws (b : Browser) (id tabId : TabId) (injectOk : Bool) :
    onClicked b ⟨id, none⟩ injectOk = ⟨b, some JsError.typeError⟩ ∧
    onUpdated b tabId ⟨id, none⟩ injectOk = ⟨b, none⟩ :=
  ⟨rfl, rfl⟩

/-! ## The click listener (C1, C7, C10) -/

/-- C1 as stated fails on a page where no style element has an associated style sheet.
From a fresh install (badge "ON") a click on a target-site tab injects successfully and
leaves the badge reading "OFF"; on a page without `<style>` element every style element
(there is none) has `disabled = false`, and on a page whose only `<style>` element has no
associated style sheet that element still reads `disabled = false`. -/
theorem click_consistency_fails_without_styles :
    ((onClicked (freshInstall fun _ => []) ⟨1, some "https://toyhou.se/profile"⟩ true).error
        = none ∧
      ¬ (getBadgeText (onClicked (freshInstall fun _ => [])
            ⟨1, some "https://toyhou.se/profile"⟩ true).state 1 = "ON" ↔
          allDisabledAre false ((onClicked (freshInstall fun _ => [])
            ⟨1, some "https://toyhou.se/profile"⟩ true).state.document 1))) ∧
    ((onClicked (freshInstall fun _ => [⟨"b", none⟩])
        ⟨1, some "https://toyhou.se/profile"⟩ true).error = none ∧
      ¬ (getBadgeText (onClicked (freshInstall fun _ => [⟨"b", none⟩])
            ⟨1, some "https://toyhou.se/profile"⟩ true).state 1 = "ON" ↔
          allDisabledAre false ((onClicked (freshInstall fun _ => [⟨"b", none⟩])
            ⟨1, some "https://toyhou.se/profile"⟩ true).state.document 1))) := by
  decide

/-- C1, amended: for every target-site tab, prior badge text and list of style elements,
after `OnIconClicked` with a successful injection every style element that has an
associated CSS style sheet has `disabled = (badge is not "ON")` and every one without
reads `disabled = false`; hence the badge reads "ON" iff every style element has
`disabled = false` whenever some style element of the page has an associated sheet. -/
theorem click_badge_styles_consistent (b : Browser) (tab : Tab)
    (h : tab.isToyhouse = true) :
    (onClicked b tab true).error = none ∧
    disabledAsApplied (decide (getBadgeText (onClicked b tab true).state tab.id = "ON"))
      ((onClicked b tab true).state.document tab.id) ∧
    ((∃ e ∈ (onClicked b tab true).state.document tab.id, e.sheet.isSome = true) →
      (getBadgeText (onClicked b tab true).state tab.id = "ON" ↔
        allDisabledAre false ((onClicked b tab true).state.document tab.id))) := by
  rw [onClicked_ok b tab h]
  simp only [getBadgeText_toggleStyleTags, getBadgeText_setBadgeText,
    document_toggleStyleTags, document_setBadgeText]
  generalize (if getBadgeText b tab.id = "ON" then "OFF" else "ON") = x
  have key := styleLoop_disabledAsApplied (decide (x = "ON")) (b.document tab.id)
  refine ⟨trivial, key, ?_⟩
  rintro ⟨e, he, hsheet⟩
  constructor
  · intro hon
    have hd : decide (x = "ON") = true := by simp [hon]
    rw [hd] at key ⊢
    exact disabledAsApplied_true _ key
  · intro hall
    by_contra hoff
    have h1 := key e he
    have h2 := hall e he
    rw [h2, hsheet] at h1
    simp [hoff] at h1

theorem click_badge_styles_consistent_witness :
    Tab.isToyhouse ⟨1, some "https://toyhou.se/profile"⟩ = true ∧
    (∃ e ∈ (onClicked (freshInstall fun _ => mixedPage)
        ⟨1, some "https://toyhou.se/profile"⟩ true).state.document 1, e.sheet.isSome = true) ∧
    (getBadgeText (onClicked (freshInstall fun _ => mixedPage)
        ⟨1, some "https://toyhou.se/profile"⟩ true).state 1 = "ON" ↔
      allDisabledAre false ((onClicked (freshInstall fun _ => mixedPage)
        ⟨1, some "https://toyhou.se/profile"⟩ true).state.document 1)) :=
  ⟨by decide, by decide,
    (click_badge_styles_consistent (freshInstall fun _ => mixedPage)
      ⟨1, some "https://toyhou.se/profile"⟩ (by decide)).2.2 (by decide)⟩

/-- C7 as stated fails on a style element without associated style sheet: from a fresh
install a click on a target-site tab showing `mixedPage` injects successfully, sets the
badge to "OFF" (so `enabled = false`), and the element without sheet still reads
`disabled = false`, which is not `!enabled`. -/
theorem click_leaves_sheetless_enabled :
    (onClicked (freshInstall fun _ => mixedPage)
      ⟨1, some "https://toyhou.se/profile"⟩ true).error = none ∧
    getBadgeText (onClicked (freshInstall fun _ => mixedPage)
      ⟨1, some "https://toyhou.se/profile"⟩ true).state 1 = "OFF" ∧
    ¬ allDisabledAre
      (!decide (getBadgeText (onClicked (freshInstall fun _ => mixedPage)
        ⟨1, some "https://toyhou.se/profile"⟩ true).state 1 = "ON"))
      ((onClicked (freshInstall fun _ => mixedPage)
        ⟨1, some "https://toyhou.se/profile"⟩ true).state.document 1) := by
  decide

/-- C7, amended: for every target-site tab with prior badge text `p`, `OnIconClicked` with
a successful injection ends without error, writes the inverse label as the badge text of
the tab ("OFF" when `p` is "ON", "ON" otherwise, so "ON" when `p` is "OFF"), leaves every
style element that has an associated CSS style sheet with `disabled = !enabled` and every
one without reading `disabled = false`, where `enabled = (new badge is "ON")`, and stores
that same boolean under `styleTagsEnabled`. -/
theorem click_flips_applies_persists (b : Browser) (tab : Tab)
    (h : tab.isToyhouse = true) :
    (onClicked b tab true).error = none ∧
    getBadgeText (onClicked b tab true).state tab.id
      = (if getBadgeText b tab.id = "ON" then "OFF" else "ON") ∧
    (getBadgeText b tab.id = "ON" →
      getBadgeText (onClicked b tab true).state tab.id = "OFF") ∧
    (getBadgeText b tab.id = "OFF" →
      getBadgeText (onClicked b tab true).state tab.id = "ON") ∧
    disabledAsApplied (decide (getBadgeText (onClicked b tab true).state tab.id = "ON"))
      ((onClicked b tab true).state.document tab.id) ∧
    (onClicked b tab true).state.styleTagsEnabled
      = some (decide (getBadgeText (onClicked b tab true).state tab.id = "ON")) := by
  rw [onClicked_ok b tab h]
  simp only [getBadgeText_toggleStyleTags, getBadgeText_setBadgeText,
    document_toggleStyleTags, document_setBadgeText, store_toggleStyleTags]
  refine ⟨trivial, trivial, ?_, ?_, styleLoop_disabledAsApplied _ _, trivial⟩
  · intro hp; simp [hp]
  · intro hp; rw [hp]; decide

theorem click_flips_applies_persists_witness :
    Tab.isToyhouse ⟨1, some "https://toyhou.se/profile"⟩ = true ∧
    getBadgeText (freshInstall fun _ => mixedPage) 1 = "ON" ∧
    getBadgeText (onClicked (freshInstall fun _ => mixedPage)
        ⟨1, some "https://toyhou.se/profile"⟩ true).state 1 = "OFF" :=
  ⟨by decide, by decide,
    (click_flips_applies_persists (freshInstall fun _ => mixedPage)
      ⟨1, some "https://toyhou.se/profile"⟩ (by decide)).2.2.1 (by decide)⟩

/-- C10: `OnIconClicked` is not atomic.  On a target-site tab where the injection fails the
listener ends in an error with the badge of the tab already set to the inverse label,
while every document and the stored `styleTagsEnabled` are as before; so if badge and
styles agreed before the click (on a page with a style element) they disagree after. -/
theorem click_not_atomic (b : Browser) (tab : Tab) (h : tab.isToyhouse = true) :
    (onClicked b tab false).error = some JsError.injectionRejected ∧
    getBadgeText (onClicked b tab false).state tab.id
      = (if getBadgeText b tab.id = "ON" then "OFF" else "ON") ∧
    (onClicked b tab false).state.document = b.document ∧
    (onClicked b tab false).state.styleTagsEnabled = b.styleTagsEnabled ∧
    (b.document tab.id ≠ [] →
      (getBadgeText b tab.id = "ON" ↔ allDisabledAre false (b.document tab.id)) →
      ¬ (getBadgeText (onClicked b tab false).state tab.id = "ON" ↔
          allDisabledAre false ((onClicked b tab false).state.document tab.id))) := by
  rw [onClicked_fail b tab h]
  simp only [getBadgeText_setBadgeText, document_setBadgeText, store_setBadgeText]
  refine ⟨trivial, trivial, trivial, trivial, ?_⟩
  intro _ hbefore hafter
  by_cases hp : getBadgeText b tab.id = "ON"
  · have h1 := hafter.2 (hbefore.1 hp)
    simp [hp] at h1
  · have h1 := hbefore.2 (hafter.1 (by simp [hp]))
    exact hp h1

theorem click_not_atomic_witness :
    Tab.isToyhouse ⟨1, some "https://toyhou.se/profile"⟩ = true ∧
    (freshInstall fun _ => [⟨"a", some false⟩]).document 1 ≠ [] ∧
    (getBadgeText (freshInstall fun _ => [⟨"a", some false⟩]) 1 = "ON" ↔
      allDisabledAre false ((freshInstall fun _ => [⟨"a", some false⟩]).document 1)) ∧
    (onClicked (freshInstall fun _ => [⟨"a", some false⟩])
      ⟨1, some "https://toyhou.se/profile"⟩ false).error = some JsError.injectionRejected ∧
    ¬ (getBadgeText (onClicked (freshInstall fun _ => [⟨"a", some false⟩])
          ⟨1, some "https://toyhou.se/profile"⟩ false).state 1 = "ON" ↔
        allDisabledAre false ((onClicked (freshInstall fun _ => [⟨"a", some false⟩])
          ⟨1, some "https://toyhou.se/profile"⟩ false).state.document 1)) :=
  ⟨by decide, by decide, by decide,
    (click_not_atomic (freshInstall fun _ => [⟨"a", some false⟩])
      ⟨1, some "https://toyhou.se/profile"⟩ (by decide)).1,
    (click_not_atomic (freshInstall fun _ => [⟨"a", some false⟩])
      ⟨1, some "https://toyhou.se/profile"⟩ (by decide)).2.2.2.2 (by decide) (by decide)⟩

/-! ## The tab-updated listener (C4, C5) -/

theorem Browser.eq_of_fields {a b : Browser}
    (h1 : a.styleTagsEnabled = b.styleTagsEnabled) (h2 : a.globalBadge = b.globalBadge)
    (h3 : a.tabBadge = b.tabBadge) (h4 : a.document = b.document) : a = b := by
  cases a; cases b; simp_all

theorem setBadgeText_idem (b : Browser) (t : TabId) (x : String) :
    setBadgeText (setBadgeText b t x) t x = setBadgeText b t x := by
  apply Browser.eq_of_fields <;> try rfl
  funext u
  by_cases hu : u = t <;> simp [setBadgeText, hu]

theorem toggle_after_update (b : Browser) (t : TabId) (v : Bool) (x : String) :
    setBadgeText (toggleStyleTags v t (setBadgeText (toggleStyleTags v t b) t x)) t x
      = setBadgeText (toggleStyleTags v t b) t x := by
  apply Browser.eq_of_fields
  · rfl
  · rfl
  · funext u
    by_cases hu : u = t <;> simp [setBadgeText, toggleStyleTags, hu]
  · funext u
    by_cases hu : u = t <;> simp [setBadgeText, toggleStyleTags, hu, styleLoop_idem]

/-- C4: for every target-site tab, when `styleTagsEnabled` was never stored (the read
gives `undefined`), `OnTabUpdated` sets the badge text of the tab to "ON" and applies
`enabled = true`: it runs `toggleStyleTags(true)` in the page, so that every style element
of the page has `disabled = false`. -/
theorem update_defaults_to_enabled (b : Browser) (tabId : TabId) (tab : Tab)
    (h : tab.isToyhouse = true) (hs : b.styleTagsEnabled = none) :
    (∀ injectOk, getBadgeText (onUpdated b tabId tab injectOk).state tabId = "ON") ∧
    onUpdated b tabId tab true
      = ⟨setBadgeText (toggleStyleTags true tabId b) tabId "ON", none⟩ ∧
    allDisabledAre false ((onUpdated b tabId tab true).state.document tabId) := by
  refine ⟨?_, ?_, ?_⟩
  · intro injectOk
    cases injectOk
    · rw [onUpdated_fail b tabId tab h]; simp [hs, stateToApply]
    · rw [onUpdated_ok b tabId tab h]; simp [hs, stateToApply]
  · rw [onUpdated_ok b tabId tab h]; simp [hs, stateToApply]
  · rw [onUpdated_ok b tabId tab h]
    simp only [document_setBadgeText, document_toggleStyleTags, hs, stateToApply]
    exact disabledAsApplied_true _ (styleLoop_disabledAsApplied true _)

theorem update_defaults_to_enabled_witness :
    Tab.isToyhouse ⟨1, some "https://toyhou.se/profile"⟩ = true ∧
    (freshInstall fun _ => [⟨"a", some true⟩, ⟨"b", none⟩]).styleTagsEnabled = none ∧
    allDisabledAre false ((onUpdated (freshInstall fun _ => [⟨"a", some true⟩, ⟨"b", none⟩]) 1
      ⟨1, some "https://toyhou.se/profile"⟩ true).state.document 1) :=
  ⟨by decide, rfl,
    (update_defaults_to_enabled (freshInstall fun _ => [⟨"a", some true⟩, ⟨"b", none⟩]) 1
      ⟨1, some "https://toyhou.se/profile"⟩ (by decide) rfl).2.2⟩

/-- C5: `OnTabUpdated` is idempotent.  For every tab and every initial state (storage,
badge texts, style elements), a second `OnTabUpdated` right after a first one whose
injection succeeded leaves the whole state (badge texts, every style element, storage)
as the first run left it, whether or not the second injection succeeds; the same holds
when the injection fails in both runs. -/
theorem update_idempotent (b : Browser) (tabId : TabId) (tab : Tab) :
    (∀ injectOk, (onUpdated (onUpdated b tabId tab true).state tabId tab injectOk).state
      = (onUpdated b tabId tab true).state) ∧
    (onUpdated (onUpdated b tabId tab false).state tabId tab false).state
      = (onUpdated b tabId tab false).state := by
  cases h : tab.isToyhouse
  · simp [onUpdated_off _ tabId tab _ h]
  · refine ⟨?_, ?_⟩
    · intro injectOk
      rw [onUpdated_ok b tabId tab h]
      cases injectOk
      · rw [onUpdated_fail _ tabId tab h]
        simp only [store_setBadgeText, store_toggleStyleTags, stateToApply]
        exact setBadgeText_idem _ _ _
      · rw [onUpdated_ok _ tabId tab h]
        simp only [store_setBadgeText, store_toggleStyleTags, stateToApply]
        exact toggle_after_update _ _ _ _
    · rw [onUpdated_fail b tabId tab h, onUpdated_fail _ tabId tab h]
      simp only [store_setBadgeText]
      exact setBadgeText_idem _ _ _

/-! ## Persisted state across navigations (C3) -/

theorem step_keeps_store (b : Browser) (e : Event) (v : Bool)
    (hnc : e.isClick = false) (hs : b.styleTagsEnabled = some v) :
    (step b e).styleTagsEnabled = some v := by
  cases e with
  | installed badgesReset => exact hs
  | clicked tab injectOk => simp [Event.isClick] at hnc
  | pageLoaded tabId doc badgeReset => exact hs
  | updated tabId tab injectOk =>
    simp only [step]
    cases h : tab.isToyhouse
    · rw [onUpdated_off b tabId tab injectOk h]; exact hs
    · cases injectOk
      · rw [onUpdated_fail b tabId tab h]; exact hs
      · rw [onUpdated_ok b tabId tab h]; simp [hs, stateToApply]

theorem run_keeps_store (events : List Event) (b : Browser) (v : Bool)
    (hnc : ∀ e ∈ events, e.isClick = false) (hs : b.styleTagsEnabled = some v) :
    (run b events).styleTagsEnabled = some v := by
  induction events generalizing b with
  | nil => exact hs
  | cons e rest ih =>
    have he : e.isClick = false := hnc e (by simp)
    have hrest : ∀ x ∈ rest, x.isClick = false := fun x hx => hnc x (by simp [hx])
    exact ih (step b e) hrest (step_keeps_store b e v he hs)

theorem update_with_store (b : Browser) (tabId : TabId) (tab : Tab) (v : Bool)
    (h : tab.isToyhouse = true) (hs : b.styleTagsEnabled = some v) :
    getBadgeText (onUpdated b tabId tab true).state tabId = (if v then "ON" else "OFF") ∧
    disabledAsApplied v ((onUpdated b tabId tab true).state.document tabId) := by
  rw [onUpdated_ok b tabId tab h]
  simp only [getBadgeText_setBadgeText, document_setBadgeText, document_toggleStyleTags,
    hs, stateToApply]
  exact ⟨trivial, styleLoop_disabledAsApplied v _⟩

theorem update_after_click (b : Browser) (tab : Tab) (h : tab.isToyhouse = true)
    (between : List Event) (hnc : ∀ e ∈ between, e.isClick = false)
    (tabId2 : TabId) (tab2 : Tab) (h2 : tab2.isToyhouse = true) :
    (getBadgeText (onClicked b tab true).state tab.id = "ON" ∨
      getBadgeText (onClicked b tab true).state tab.id = "OFF") ∧
    getBadgeText (onUpdated (run (onClicked b tab true).state between) tabId2 tab2 true).state
      tabId2 = getBadgeText (onClicked b tab true).state tab.id ∧
    disabledAsApplied (decide (getBadgeText (onClicked b tab true).state tab.id = "ON"))
      ((onUpdated (run (onClicked b tab true).state between) tabId2 tab2
        true).state.document tabId2) := by
  have hstore := (click_store b tab h)
  have hrun := run_keeps_store between _ _ hnc hstore
  have hupd := update_with_store _ tabId2 tab2 _ h2 hrun
  have hbadge : getBadgeText (onClicked b tab true).state tab.id
      = (if getBadgeText b tab.id = "ON" then "OFF" else "ON") := by
    rw [onClicked_ok b tab h]; simp
  rw [hbadge]
  by_cases hp : getBadgeText b tab.id = "ON"
  · rw [if_pos hp] at hupd ⊢
    exact ⟨Or.inr rfl, by simpa using hupd.1, by simpa using hupd.2⟩
  · rw [if_neg hp] at hupd ⊢
    exact ⟨Or.inl rfl, by simpa using hupd.1, by simpa using hupd.2⟩

theorem install_navigate_click (pages : TabId → List StyleTag) (t : TabId)
    (u1 : String) (hu1 : startsWith u1 TOYHOUSE_URL = true) (doc1 : List StyleTag)
    (r1 : Bool) :
    getBadgeText (run (freshInstall pages)
      [.pageLoaded t doc1 r1, .updated t ⟨t, some u1⟩ true, .clicked ⟨t, some u1⟩ true]) t
      = "OFF" ∧
    disabledAsApplied false ((run (freshInstall pages)
      [.pageLoaded t doc1 r1, .updated t ⟨t, some u1⟩ true,
        .clicked ⟨t, some u1⟩ true]).document t) ∧
    (run (freshInstall pages)
      [.pageLoaded t doc1 r1, .updated t ⟨t, some u1⟩ true,
        .clicked ⟨t, some u1⟩ true]).styleTagsEnabled = some false := by
  have ht1 : Tab.isToyhouse ⟨t, some u1⟩ = true := by simpa [Tab.isToyhouse] using hu1
  simp only [run, List.foldl, step]
  rw [onClicked_ok _ _ ht1, onUpdated_ok _ _ _ ht1]
  have hst : stateToApply (freshInstall pages).styleTagsEnabled = true := rfl
  have hdec : decide ((if (if true = true then "ON" else "OFF") = "ON" then "OFF" else "ON")
      = "ON") = false := by decide
  simp only [getBadgeText_toggleStyleTags, getBadgeText_setBadgeText,
    document_toggleStyleTags, document_setBadgeText, store_toggleStyleTags, hst, hdec]
  exact ⟨by decide, styleLoop_disabledAsApplied false _, by decide⟩

/-- C3 as stated fails on a style element without associated style sheet: from a fresh
install, navigating a tab to the site on `mixedPage` and clicking leaves the badge "OFF"
while the element without sheet still reads `disabled = false`, and it is the same after
a further navigation on the site to `mixedPage`. -/
theorem saved_off_state_leaves_sheetless_enabled :
    getBadgeText (run (freshInstall fun _ => [])
      [.pageLoaded 1 mixedPage true, .updated 1 ⟨1, some "https://toyhou.se/profile"⟩ true,
        .clicked ⟨1, some "https://toyhou.se/profile"⟩ true]) 1 = "OFF" ∧
    ¬ allDisabledAre true ((run (freshInstall fun _ => [])
      [.pageLoaded 1 mixedPage true, .updated 1 ⟨1, some "https://toyhou.se/profile"⟩ true,
        .clicked ⟨1, some "https://toyhou.se/profile"⟩ true]).document 1) ∧
    getBadgeText (run (freshInstall fun _ => [])
      [.pageLoaded 1 mixedPage true, .updated 1 ⟨1, some "https://toyhou.se/profile"⟩ true,
        .clicked ⟨1, some "https://toyhou.se/profile"⟩ true,
        .pageLoaded 1 mixedPage true,
        .updated 1 ⟨1, some "https://toyhou.se/other"⟩ true]) 1 = "OFF" ∧
    ¬ allDisabledAre true ((run (freshInstall fun _ => [])
      [.pageLoaded 1 mixedPage true, .updated 1 ⟨1, some "https://toyhou.se/profile"⟩ true,
        .clicked ⟨1, some "https://toyhou.se/profile"⟩ true,
        .pageLoaded 1 mixedPage true,
        .updated 1 ⟨1, some "https://toyhou.se/other"⟩ true]).document 1) := by
  decide

/-- C3, amended: on a target-site tab, once `OnIconClicked` (injection succeeding) has left
the badge of the tab reading `X`, which is "ON" or "OFF", an `OnTabUpdated` for any
target-site tab that follows with no click in between (installs, page loads with or
without badge reset, and other tab updates may happen) sets the badge of that tab to `X`
and leaves every style element of its page that has an associated CSS style sheet with
`disabled = (X is "OFF")` and every one without reading `disabled = false`.  In particular,
from a fresh install, navigating to the site and clicking gives badge "OFF" with every
style element that has a sheet disabled, and navigating again on the site keeps badge
"OFF" and every style element that has a sheet disabled. -/
theorem saved_state_honoured (b : Browser) (tab : Tab) (h : tab.isToyhouse = true)
    (between : List Event) (hnc : ∀ e ∈ between, e.isClick = false)
    (tabId2 : TabId) (tab2 : Tab) (h2 : tab2.isToyhouse = true)
    (pages : TabId → List StyleTag) (t : TabId) (u1 u2 : String)
    (hu1 : startsWith u1 TOYHOUSE_URL = true) (hu2 : startsWith u2 TOYHOUSE_URL = true)
    (doc1 doc2 : List StyleTag) (r1 r2 : Bool) :
    ((getBadgeText (onClicked b tab true).state tab.id = "ON" ∨
        getBadgeText (onClicked b tab true).state tab.id = "OFF") ∧
      getBadgeText
        (onUpdated (run (onClicked b tab true).state between) tabId2 tab2 true).state tabId2
        = getBadgeText (onClicked b tab true).state tab.id ∧
      disabledAsApplied (decide (getBadgeText (onClicked b tab true).state tab.id = "ON"))
        ((onUpdated (run (onClicked b tab true).state between) tabId2 tab2
          true).state.document tabId2)) ∧
    (getBadgeText (run (freshInstall pages)
        [.pageLoaded t doc1 r1, .updated t ⟨t, some u1⟩ true, .clicked ⟨t, some u1⟩ true]) t
        = "OFF" ∧
      disabledAsApplied false ((run (freshInstall pages)
        [.pageLoaded t doc1 r1, .updated t ⟨t, some u1⟩ true,
          .clicked ⟨t, some u1⟩ true]).document t) ∧
      getBadgeText (run (freshInstall pages)
        [.pageLoaded t doc1 r1, .updated t ⟨t, some u1⟩ true, .clicked ⟨t, some u1⟩ true,
          .pageLoaded t doc2 r2, .updated t ⟨t, some u2⟩ true]) t = "OFF" ∧
      disabledAsApplied false ((run (freshInstall pages)
        [.pageLoaded t doc1 r1, .updated t ⟨t, some u1⟩ true, .clicked ⟨t, some u1⟩ true,
          .pageLoaded t doc2 r2, .updated t ⟨t, some u2⟩ true]).document t)) := by
  refine ⟨update_after_click b tab h between hnc tabId2 tab2 h2, ?_⟩
  obtain ⟨hb, hd, hs⟩ := install_navigate_click pages t u1 hu1 doc1 r1
  refine ⟨hb, hd, ?_⟩
  have ht2 : Tab.isToyhouse ⟨t, some u2⟩ = true := by simpa [Tab.isToyhouse] using hu2
  have hsplit : run (freshInstall pages)
      [.pageLoaded t doc1 r1, .updated t ⟨t, some u1⟩ true, .clicked ⟨t, some u1⟩ true,
        .pageLoaded t doc2 r2, .updated t ⟨t, some u2⟩ true]
      = (onUpdated (step (run (freshInstall pages)
          [.pageLoaded t doc1 r1, .updated t ⟨t, some u1⟩ true, .clicked ⟨t, some u1⟩ true])
          (.pageLoaded t doc2 r2)) t ⟨t, some u2⟩ true).state := rfl
  rw [hsplit]
  have hs2 : (step (run (freshInstall pages)
      [.pageLoaded t doc1 r1, .updated t ⟨t, some u1⟩ true, .clicked ⟨t, some u1⟩ true])
      (.pageLoaded t doc2 r2)).styleTagsEnabled = some false := hs
  have := update_with_store _ t ⟨t, some u2⟩ false ht2 hs2
  simpa using this

theorem saved_state_honoured_witness :
    Tab.isToyhouse ⟨1, some "https://toyhou.se/profile"⟩ = true ∧
    (∀ e ∈ [Event.pageLoaded 2 mixedPage true, Event.installed true], e.isClick = false) ∧
    Tab.isToyhouse ⟨2, some "https://toyhou.se/other"⟩ = true ∧
    startsWith "https://toyhou.se/profile" TOYHOUSE_URL = true ∧
    startsWith "https://toyhou.se/other" TOYHOUSE_URL = true ∧
    getBadgeText
      (onUpdated (run (onClicked (freshInstall fun _ => mixedPage)
          ⟨1, some "https://toyhou.se/profile"⟩ true).state
        [Event.pageLoaded 2 mixedPage true, Event.installed true]) 2
        ⟨2, some "https://toyhou.se/other"⟩ true).state 2
      = getBadgeText (onClicked (freshInstall fun _ => mixedPage)
          ⟨1, some "https://toyhou.se/profile"⟩ true).state 1 ∧
    getBadgeText (run (freshInstall fun _ => [])
      [.pageLoaded 1 mixedPage true, .updated 1 ⟨1, some "https://toyhou.se/profile"⟩ true,
        .clicked ⟨1, some "https://toyhou.se/profile"⟩ true,
        .pageLoaded 1 mixedPage true,
        .updated 1 ⟨1, some "https://toyhou.se/other"⟩ true]) 1 = "OFF" :=
  ⟨by decide, by decide, by decide, by decide, by decide,
    (saved_state_honoured (freshInstall fun _ => mixedPage)
      ⟨1, some "https://toyhou.se/profile"⟩ (by decide)
      [Event.pageLoaded 2 mixedPage true, Event.installed true] (by decide)
      2 ⟨2, some "https://toyhou.se/other"⟩ (by decide)
      (fun _ => []) 1 "https://toyhou.se/profile" "https://toyhou.se/other"
      (by decide) (by decide) mixedPage mixedPage true true).1.2.1,
    (saved_state_honoured (freshInstall fun _ => mixedPage)
      ⟨1, some "https://toyhou.se/profile"⟩ (by decide)
      [Event.pageLoaded 2 mixedPage true, Event.installed true] (by decide)
      2 ⟨2, some "https://toyhou.se/other"⟩ (by decide)
      (fun _ => []) 1 "https://toyhou.se/profile" "https://toyhou.se/other"
      (by decide) (by decide) mixedPage mixedPage true true).2.2.2.1⟩

/-! ## The stored boolean and the badge (C6) -/

theorem mirrors_settle (t : TabId) (b : Browser) (e : Event) (he : e.settles t = true) :
    Mirrors t (step b e) := by
  cases e with
  | installed badgesReset => simp [Event.settles] at he
  | pageLoaded tabId doc badgeReset => simp [Event.settles] at he
  | clicked tab injectOk =>
    simp only [Event.settles, Bool.and_eq_true, decide_eq_true_eq] at he
    obtain ⟨⟨h, hid⟩, hok⟩ := he
    subst hok hid
    simp only [step]
    rw [onClicked_ok b tab h]
    by_cases hp : getBadgeText b tab.id = "ON"
    · exact ⟨false, by simp [toggleStyleTags, hp], by simp [toggleStyleTags, setBadgeText, hp]⟩
    · exact ⟨true, by simp [toggleStyleTags, hp], by simp [toggleStyleTags, setBadgeText, hp]⟩
  | updated tabId tab injectOk =>
    simp only [Event.settles, Bool.and_eq_true, decide_eq_true_eq] at he
    obtain ⟨⟨h, hid⟩, hok⟩ := he
    subst hok hid
    simp only [step]
    rw [onUpdated_ok b tabId tab h]
    exact ⟨stateToApply b.styleTagsEnabled, rfl, by simp [setBadgeText]⟩

theorem mirrors_spares (t : TabId) (b : Browser) (e : Event) (he : e.spares t = true)
    (hm : Mirrors t b) : Mirrors t (step b e) := by
  obtain ⟨v, hs, hb⟩ := hm
  cases e with
  | installed badgesReset =>
    have hr : badgesReset = false := by simpa [Event.spares] using he
    subst hr
    exact ⟨v, hs, by simpa [step, onInstalled] using hb⟩
  | pageLoaded tabId doc badgeReset =>
    refine ⟨v, hs, ?_⟩
    simp only [Event.spares, Bool.not_eq_true', Bool.and_eq_false_imp,
      decide_eq_false_iff_not] at he
    simp only [step]
    by_cases hr : badgeReset = true
    · have hne : ¬ t = tabId := fun h => he hr h.symm
      simpa [hne] using hb
    · simpa [hr] using hb
  | clicked tab injectOk =>
    simp only [step]
    cases h : tab.isToyhouse
    · rw [onClicked_off b tab injectOk h]; exact ⟨v, hs, hb⟩
    · simp only [Event.spares, h, Bool.not_true, Bool.false_or, Bool.and_eq_true,
        Bool.not_eq_true', decide_eq_false_iff_not] at he
      obtain ⟨hok, hid⟩ := he
      subst hok
      rw [onClicked_fail b tab h]
      have hne : ¬ t = tab.id := fun h => hid h.symm
      exact ⟨v, hs, by simpa [setBadgeText, hne] using hb⟩
  | updated tabId tab injectOk =>
    simp only [step]
    cases h : tab.isToyhouse
    · rw [onUpdated_off b tabId tab injectOk h]; exact ⟨v, hs, hb⟩
    · cases injectOk
      · rw [onUpdated_fail b tabId tab h]
        refine ⟨v, hs, ?_⟩
        by_cases ht : t = tabId <;> simp [setBadgeText, ht, hs, stateToApply, hb]
      · rw [onUpdated_ok b tabId tab h]
        refine ⟨v, by simp [hs, stateToApply], ?_⟩
        by_cases ht : t = tabId <;> simp [setBadgeText, toggleStyleTags, ht, hs, stateToApply, hb]

theorem mirrors_run (t : TabId) (events : List Event) (b : Browser)
    (he : ∀ e ∈ events, e.spares t = true) (hm : Mirrors t b) :
    Mirrors t (run b events) := by
  induction events generalizing b with
  | nil => exact hm
  | cons e rest ih =>
    exact ih (step b e) (fun x hx => he x (by simp [hx]))
      (mirrors_spares t b e (he e (by simp)) hm)

theorem mirrors_iff (t : TabId) (b : Browser) (hm : Mirrors t b) :
    b.styleTagsEnabled = some true ↔ getBadgeText b t = "ON" := by
  obtain ⟨v, hs, hb⟩ := hm
  cases v <;> simp [hs, getBadgeText, hb]

/-- C6 as stated fails.  With two tabs: from a fresh install, clicking on target-site tab
1, then on target-site tab 2, then on tab 1 again (every injection succeeding) stores
`styleTagsEnabled = true` and leaves tab 1 reading "ON" but tab 2 reading "OFF".  With a
failing injection: after a tab update, a click on the same tab whose injection fails
leaves `true` stored and the badge of that tab reading "OFF".  With the key unset: a tab
update whose injection fails on a fresh install leaves nothing stored and the badge of the
tab reading "ON". -/
theorem badge_mirror_fails_two_tabs :
    ((run (freshInstall fun _ => mixedPage) twoTabClicks).styleTagsEnabled = some true ∧
      getBadgeText (run (freshInstall fun _ => mixedPage) twoTabClicks) 1 = "ON" ∧
      getBadgeText (run (freshInstall fun _ => mixedPage) twoTabClicks) 2 = "OFF" ∧
      ¬ ((run (freshInstall fun _ => mixedPage) twoTabClicks).styleTagsEnabled = some true ↔
          ∀ t, getBadgeText (run (freshInstall fun _ => mixedPage) twoTabClicks) t = "ON") ∧
      ¬ ((run (freshInstall fun _ => mixedPage) twoTabClicks).styleTagsEnabled = some true ↔
          getBadgeText (run (freshInstall fun _ => mixedPage) twoTabClicks) 2 = "ON")) ∧
    ((run (freshInstall fun _ => mixedPage) failedClick).styleTagsEnabled = some true ∧
      getBadgeText (run (freshInstall fun _ => mixedPage) failedClick) 1 = "OFF") ∧
    ((run (freshInstall fun _ => mixedPage)
        [.updated 1 ⟨1, some "https://toyhou.se/a"⟩ false]).styleTagsEnabled = none ∧
      getBadgeText (run (freshInstall fun _ => mixedPage)
        [.updated 1 ⟨1, some "https://toyhou.se/a"⟩ false]) 1 = "ON") := by
  have h1 : (run (freshInstall fun _ => mixedPage) twoTabClicks).styleTagsEnabled
      = some true := by decide
  have h2 : getBadgeText (run (freshInstall fun _ => mixedPage) twoTabClicks) 2 = "OFF" := by
    decide
  refine ⟨⟨h1, by decide, h2, ?_, ?_⟩, by decide, by decide⟩
  · intro h
    have h3 := h.1 h1 2
    rw [h2] at h3
    exact absurd h3 (by decide)
  · intro h
    have h3 := h.1 h1
    rw [h2] at h3
    exact absurd h3 (by decide)

/-- C6, amended: in every state reached from a fresh install by `OnInstall`,
`OnIconClicked` and `OnTabUpdated` events (and page loads) over any set of tabs and with
any injection outcomes, the stored boolean mirrors the badge of a tab `t`, that is
`styleTagsEnabled` is `true` iff the badge of `t` reads "ON", whenever a listener has run
on target-site tab `t` with a successful injection and, since then, no click has injected
on a target-site tab, no click has failed on `t`, and the browser has not reset the badge
text of `t`. -/
theorem settled_tab_mirror (pages : TabId → List StyleTag) (t : TabId)
    (earlier later : List Event) (e : Event) (he : e.settles t = true)
    (hlater : ∀ x ∈ later, x.spares t = true) :
    (run (freshInstall pages) (earlier ++ e :: later)).styleTagsEnabled = some true ↔
      getBadgeText (run (freshInstall pages) (earlier ++ e :: later)) t = "ON" := by
  apply mirrors_iff
  have hsplit : run (freshInstall pages) (earlier ++ e :: later)
      = run (step (run (freshInstall pages) earlier) e) later := by
    simp [run, List.foldl_append]
  rw [hsplit]
  exact mirrors_run t later _ hlater (mirrors_settle t _ e he)

theorem settled_tab_mirror_witness :
    Event.settles 1 (Event.clicked ⟨1, some "https://toyhou.se/a"⟩ true) = true ∧
    (∀ x ∈ [Event.pageLoaded 1 mixedPage false,
        Event.clicked ⟨2, some "https://toyhou.se/b"⟩ false,
        Event.updated 2 ⟨2, some "https://toyhou.se/b"⟩ true,
        Event.pageLoaded 2 mixedPage true,
        Event.installed false], x.spares 1 = true) ∧
    ((run (freshInstall fun _ => mixedPage)
        ([Event.clicked ⟨2, some "https://toyhou.se/b"⟩ true,
          Event.updated 1 ⟨1, some "https://toyhou.se/a"⟩ false,
          Event.clicked ⟨1, some "https://toyhou.se/a"⟩ false] ++
          Event.clicked ⟨1, some "https://toyhou.se/a"⟩ true ::
          [Event.pageLoaded 1 mixedPage false,
            Event.clicked ⟨2, some "https://toyhou.se/b"⟩ false,
            Event.updated 2 ⟨2, some "https://toyhou.se/b"⟩ true,
            Event.pageLoaded 2 mixedPage true,
            Event.installed false])).styleTagsEnabled = some true ↔
      getBadgeText (run (freshInstall fun _ => mixedPage)
        ([Event.clicked ⟨2, some "https://toyhou.se/b"⟩ true,
          Event.updated 1 ⟨1, some "https://toyhou.se/a"⟩ false,
          Event.clicked ⟨1, some "https://toyhou.se/a"⟩ false] ++
          Event.clicked ⟨1, some "https://toyhou.se/a"⟩ true ::
          [Event.pageLoaded 1 mixedPage false,
            Event.clicked ⟨2, some "https://toyhou.se/b"⟩ false,
            Event.updated 2 ⟨2, some "https://toyhou.se/b"⟩ true,
            Event.pageLoaded 2 mixedPage true,
            Event.installed false])) 1 = "ON") :=
  ⟨by decide, by decide,
    settled_tab_mirror (fun _ => mixedPage) 1
      [Event.clicked ⟨2, some "https://toyhou.se/b"⟩ true,
        Event.updated 1 ⟨1, some "https://toyhou.se/a"⟩ false,
        Event.clicked ⟨1, some "https://toyhou.se/a"⟩ false]
      [Event.pageLoaded 1 mixedPage false,
        Event.clicked ⟨2, some "https://toyhou.se/b"⟩ false,
        Event.updated 2 ⟨2, some "https://toyhou.se/b"⟩ true,
        Event.pageLoaded 2 mixedPage true,
        Event.installed false]
      (Event.clicked ⟨1, some "https://toyhou.se/a"⟩ true) (by decide) (by decide)⟩

end ToyhouseCSS
